import Mathlib

namespace PocketPing

/-- Sender role of a chat message (models.Sender). -/
inductive Sender
  | visitor
  | operator
  | ai
deriving DecidableEq

/-- Delivery status of a message (models.MessageStatus). -/
inductive MessageStatus
  | sending
  | sent
  | delivered
  | read
deriving DecidableEq

/-- Metadata about the visitor session (models.SessionMetadata).
All fields are optional strings; Python treats None and the empty
string as falsy. -/
structure SessionMetadata where
  url : Option String := none
  referrer : Option String := none
  pageTitle : Option String := none
  userAgent : Option String := none
  timezone : Option String := none
  language : Option String := none
  screenResolution : Option String := none
  ip : Option String := none
  country : Option String := none
  city : Option String := none
  deviceType : Option String := none
  browser : Option String := none
  os : Option String := none
deriving DecidableEq

/-- User identity (models.UserIdentity); the extra free-form fields are not
modelled since no handler under scrutiny reads them. -/
structure UserIdentity where
  id : String
  email : Option String := none
  name : Option String := none
deriving DecidableEq

/-- A chat session (models.Session); timestamps are seconds as integers. -/
structure Session where
  id : String
  visitorId : String
  createdAt : Int
  lastActivity : Int
  operatorOnline : Bool := false
  aiActive : Bool := false
  metadata : Option SessionMetadata := none
  identity : Option UserIdentity := none
deriving DecidableEq

/-- A chat message (models.Message); the free-form metadata dict is not
modelled since no handler under scrutiny reads it. -/
structure Message where
  id : String
  sessionId : String
  content : String
  sender : Sender
  timestamp : Int
  replyTo : Option String := none
  status : MessageStatus := .sent
  deliveredAt : Option Int := none
  readAt : Option Int := none
deriving DecidableEq

/-- models.ConnectRequest. -/
structure ConnectRequest where
  visitorId : String
  sessionId : Option String := none
  metadata : Option SessionMetadata := none
  identity : Option UserIdentity := none
deriving DecidableEq

/-- models.ConnectResponse. -/
structure ConnectResponse where
  sessionId : String
  visitorId : String
  operatorOnline : Bool
  welcomeMessage : Option String
  messages : List Message
deriving DecidableEq

/-- models.SendMessageRequest. -/
structure SendMessageRequest where
  sessionId : String
  content : String
  sender : Sender
  replyTo : Option String := none
deriving DecidableEq

/-- models.SendMessageResponse. -/
structure SendMessageResponse where
  messageId : String
  timestamp : Int
deriving DecidableEq

/-- models.ReadRequest. -/
structure ReadRequest where
  sessionId : String
  messageIds : List String
  status : MessageStatus := .read
deriving DecidableEq

/-- models.ReadResponse. -/
structure ReadResponse where
  updated : Nat
deriving DecidableEq

/-- The dict returned by handle_get_messages (a page plus the hasMore flag). -/
structure GetMessagesPage where
  messages : List Message
  hasMore : Bool
deriving DecidableEq

/-- Python truthiness of an optional string: None and the empty string are falsy. -/
def pyTruthyStr : Option String → Bool
  | none => false
  | some s => s ≠ ""

/-- Python `a or b` on optional strings (used by the metadata merge in
handle_connect, core.py lines 131-133). -/
def strOr (a b : Option String) : Option String :=
  if pyTruthyStr a then a else b

/-- Python truthiness of an optional timestamp: None and 0 are falsy
(core.py line 379 tests the raw value of the activity dict lookup). -/
def pyTruthyTime : Option Int → Bool
  | none => false
  | some t => t ≠ 0

/-- Modelled from the spec: the storage collaborator (module pocketping.storage,
whose source is not among the files at hand) holds the durable sessions and
messages, in insertion order, behind the CRUD interface of section 6. -/
structure Storage where
  sessions : List Session := []
  messages : List Message := []
deriving DecidableEq

/-- Modelled from the spec: get_session(id) looks a session up by id. -/
def Storage.getSession (st : Storage) (sid : String) : Option Session :=
  st.sessions.find? (fun s => s.id == sid)

/-- Modelled from the spec: get_session_by_visitor_id returns the most recent
session of the visitor (the last one created, lists being in insertion order). -/
def Storage.getSessionByVisitorId (st : Storage) (vid : String) : Option Session :=
  (st.sessions.filter (fun s => s.visitorId == vid)).getLast?

/-- Modelled from the spec: create_session inserts a new session. -/
def Storage.createSession (st : Storage) (s : Session) : Storage :=
  { st with sessions := st.sessions ++ [s] }

/-- Modelled from the spec: update_session replaces the stored session with the
same id. -/
def Storage.updateSession (st : Storage) (s : Session) : Storage :=
  { st with sessions := st.sessions.map (fun x => if x.id == s.id then s else x) }

/-- Modelled from the spec: get_message(id) looks a message up by id. -/
def Storage.getMessage (st : Storage) (mid : String) : Option Message :=
  st.messages.find? (fun m => m.id == mid)

/-- Modelled from the spec: save_message is insert-or-update by id (section 6). -/
def Storage.saveMessage (st : Storage) (m : Message) : Storage :=
  if st.messages.any (fun x => x.id == m.id) then
    { st with messages := st.messages.map (fun x => if x.id == m.id then m else x) }
  else
    { st with messages := st.messages ++ [m] }

/-- Modelled from the spec: the messages of one session, those after the given
cursor id when one is supplied. -/
def Storage.messagesFor (st : Storage) (sid : String) (after : Option String) : List Message :=
  let base := st.messages.filter (fun m => m.sessionId == sid)
  match after with
  | none => base
  | some aid => (base.dropWhile (fun m => m.id != aid)).drop 1

/-- Modelled from the spec: get_messages(session_id, after?, limit?) returns the
page of the session, truncated to the limit when one is supplied. -/
def Storage.getMessages (st : Storage) (sid : String) (after : Option String)
    (limit : Option Nat) : List Message :=
  match limit with
  | none => st.messagesFor sid after
  | some l => (st.messagesFor sid after).take l

/-- A registered bridge, abstracted to its name and, per hook, whether the hook
succeeds when invoked (false models the hook raising an exception), plus
whether the optional on_message_read hook exists at all (the hasattr check of
core.py line 298). -/
structure Bridge where
  name : String
  onNewSessionOk : Bool := true
  onMessageOk : Bool := true
  hasOnMessageRead : Bool := false
  onMessageReadOk : Bool := true
deriving DecidableEq

/-- Observable side effects of a handler, in the order the code performs them:
storage writes, bridge hook invocations (a failing hook leaves a log entry
instead), realtime broadcasts and user callbacks. -/
inductive Effect
  | createSession (s : Session)
  | updateSession (s : Session)
  | saveMessage (m : Message)
  | bridgeNewSession (name : String)
  | bridgeMessage (name : String)
  | bridgeReadDispatch
  | bridgeRead (name : String)
  | bridgeErrorLog (name : String)
  | broadcast (sessionId : String) (eventType : String)
  | newSessionCallback (s : Session)
  | messageCallback (m : Message)
deriving DecidableEq

/-- Whether an effect is a bridge hook invocation or a realtime broadcast. -/
def isNotify : Effect → Bool
  | .bridgeNewSession _ => true
  | .bridgeMessage _ => true
  | .bridgeReadDispatch => true
  | .bridgeRead _ => true
  | .bridgeErrorLog _ => true
  | .broadcast _ _ => true
  | _ => false

/-- The PocketPing constructor configuration (core.py lines 30-54): the bridge
list, whether an AI provider and the optional user callbacks are configured,
the takeover delay and the welcome message. -/
structure Config where
  bridges : List Bridge := []
  hasAiProvider : Bool := false
  aiTakeoverDelay : Int := 300
  welcomeMessage : Option String := none
  hasOnNewSession : Bool := false
  hasOnMessage : Bool := false
deriving DecidableEq

/-- The mutable core state: the storage collaborator plus the in-memory
operator activity map and the process-wide operator-online flag. -/
structure CoreState where
  storage : Storage := {}
  lastOperatorActivity : List (String × Int) := []
  operatorOnline : Bool := false
deriving DecidableEq

/-- Dict assignment for the operator-activity map. -/
def setActivity (l : List (String × Int)) (k : String) (v : Int) : List (String × Int) :=
  if l.any (fun p => p.1 == k) then l.map (fun p => if p.1 == k then (k, v) else p)
  else l ++ [(k, v)]

/-- Dict lookup for the operator-activity map. -/
def lookupActivity (l : List (String × Int)) (k : String) : Option Int :=
  (l.find? (fun p => p.1 == k)).map (fun p => p.2)

/-- Embeds _notify_bridges_new_session (core.py lines 524-530): every bridge is
called in turn; a raising hook is logged and skipped. -/
def notifyBridgesNewSession (bridges : List Bridge) : List Effect :=
  bridges.map (fun b =>
    if b.onNewSessionOk then Effect.bridgeNewSession b.name else Effect.bridgeErrorLog b.name)

/-- Embeds _notify_bridges_message (core.py lines 532-538): every bridge is
called in turn; a raising on_message hook is logged and skipped. -/
def notifyBridgesMessage (bridges : List Bridge) : List Effect :=
  bridges.map (fun b =>
    if b.onMessageOk then Effect.bridgeMessage b.name else Effect.bridgeErrorLog b.name)

/-- Embeds _notify_bridges_read (core.py lines 287-302): the leading effect
marks the single dispatch; only bridges exposing on_message_read are called,
each individually guarded. -/
def notifyBridgesRead (bridges : List Bridge) : List Effect :=
  Effect.bridgeReadDispatch ::
    bridges.filterMap (fun b =>
      if b.hasOnMessageRead then
        some (if b.onMessageReadOk then Effect.bridgeRead b.name else Effect.bridgeErrorLog b.name)
      else none)

/-- Embeds handle_connect (core.py lines 90-147). `now` stands for
datetime.utcnow(), `freshId` for the generated id. -/
def handleConnect (cfg : Config) (st : CoreState) (now : Int) (freshId : String)
    (req : ConnectRequest) : CoreState × ConnectResponse × List Effect :=
  let byId : Option Session :=
    match req.sessionId with
    | some sid => if sid == "" then none else st.storage.getSession sid
    | none => none
  let found : Option Session :=
    match byId with
    | some s => some s
    | none => st.storage.getSessionByVisitorId req.visitorId
  match found with
  | none =>
    let session : Session :=
      { id := freshId, visitorId := req.visitorId, createdAt := now, lastActivity := now,
        operatorOnline := st.operatorOnline, aiActive := false, metadata := req.metadata }
    let storage1 := st.storage.createSession session
    let effs := Effect.createSession session :: notifyBridgesNewSession cfg.bridges
      ++ (if cfg.hasOnNewSession then [Effect.newSessionCallback session] else [])
    let msgs := storage1.getMessages session.id none none
    ({ st with storage := storage1 },
     { sessionId := session.id, visitorId := session.visitorId,
       operatorOnline := st.operatorOnline, welcomeMessage := cfg.welcomeMessage,
       messages := msgs },
     effs)
  | some session =>
    match req.metadata with
    | some md =>
      let md' :=
        match session.metadata with
        | some em =>
          { md with
            ip := strOr em.ip md.ip
            country := strOr em.country md.country
            city := strOr em.city md.city }
        | none => md
      let session' := { session with metadata := some md', lastActivity := now }
      let storage1 := st.storage.updateSession session'
      let msgs := storage1.getMessages session.id none none
      ({ st with storage := storage1 },
       { sessionId := session.id, visitorId := session.visitorId,
         operatorOnline := st.operatorOnline, welcomeMessage := cfg.welcomeMessage,
         messages := msgs },
       [Effect.updateSession session'])
    | none =>
      let msgs := st.storage.getMessages session.id none none
      (st,
       { sessionId := session.id, visitorId := session.visitorId,
         operatorOnline := st.operatorOnline, welcomeMessage := cfg.welcomeMessage,
         messages := msgs },
       [])

/-- Embeds handle_message (core.py lines 149-197). On an unknown session the
ValueError path returns the state unchanged with no effects. -/
def handleMessage (cfg : Config) (st : CoreState) (now : Int) (freshId : String)
    (req : SendMessageRequest) : CoreState × Except String (SendMessageResponse × List Effect) :=
  match st.storage.getSession req.sessionId with
  | none => (st, Except.error "Session not found")
  | some session =>
    let message : Message :=
      { id := freshId, sessionId := req.sessionId, content := req.content,
        sender := req.sender, timestamp := now, replyTo := req.replyTo }
    let storage1 := st.storage.saveMessage message
    let session1 := { session with lastActivity := now }
    let storage2 := storage1.updateSession session1
    let opStep :=
      if req.sender == Sender.operator then
        let acts := setActivity st.lastOperatorActivity req.sessionId now
        if session1.aiActive then
          let session2 := { session1 with aiActive := false }
          (acts, storage2.updateSession session2, [Effect.updateSession session2])
        else (acts, storage2, ([] : List Effect))
      else (st.lastOperatorActivity, storage2, ([] : List Effect))
    let bridgeEffs := if req.sender == Sender.visitor then notifyBridgesMessage cfg.bridges else []
    let cbEffs := if cfg.hasOnMessage then [Effect.messageCallback message] else []
    ({ storage := opStep.2.1, lastOperatorActivity := opStep.1,
       operatorOnline := st.operatorOnline },
     Except.ok ({ messageId := message.id, timestamp := message.timestamp },
       Effect.saveMessage message :: Effect.updateSession session1 :: opStep.2.2
         ++ bridgeEffs ++ Effect.broadcast req.sessionId "message" :: cbEffs))

/-- Embeds the /message route of fastapi.py (lines 160-167): a ValueError from
handle_message surfaces as HTTP 404, success as 200. -/
def sendMessageHttpStatus (cfg : Config) (st : CoreState) (now : Int) (freshId : String)
    (req : SendMessageRequest) : Nat :=
  match (handleMessage cfg st now freshId req).2 with
  | Except.ok _ => 200
  | Except.error _ => 404

/-- Embeds handle_get_messages (core.py lines 199-209): cap the limit at 100,
fetch one extra message to compute hasMore, return the first `limit`. -/
def handleGetMessages (st : CoreState) (sid : String) (after : Option String)
    (limit : Nat) : GetMessagesPage :=
  let lim := min limit 100
  let msgs := st.storage.getMessages sid after (some (lim + 1))
  { messages := msgs.take lim, hasMore := decide (msgs.length > lim) }

/-- Embeds the per-message status update of handle_read (core.py lines 245-251):
set the status; delivered stamps delivered_at; read back-fills delivered_at
only when unset and stamps read_at. -/
def applyStatus (status : MessageStatus) (now : Int) (m : Message) : Message :=
  let m1 := { m with status := status }
  match status with
  | .delivered => { m1 with deliveredAt := some now }
  | .read => { m1 with deliveredAt := some (m1.deliveredAt.getD now), readAt := some now }
  | _ => m1

/-- Embeds the loop of handle_read (core.py lines 242-254): each listed id is
looked up; a message of the session is updated and counted, others skipped. -/
def readLoop (storage : Storage) (sid : String) (status : MessageStatus) (now : Int) :
    List String → Storage × Nat × List Effect
  | [] => (storage, 0, [])
  | mid :: rest =>
    match storage.getMessage mid with
    | some m =>
      if m.sessionId == sid then
        let m' := applyStatus status now m
        let next := readLoop (storage.saveMessage m') sid status now rest
        (next.1, next.2.1 + 1, Effect.saveMessage m' :: next.2.2)
      else readLoop storage sid status now rest
    | none => readLoop storage sid status now rest

/-- Embeds handle_read (core.py lines 234-285): update the listed messages,
then, only when at least one was updated, broadcast once and, if the session
still resolves, dispatch the bridge read notification once. -/
def handleRead (cfg : Config) (st : CoreState) (now : Int) (req : ReadRequest) :
    CoreState × ReadResponse × List Effect :=
  let r := readLoop st.storage req.sessionId req.status now req.messageIds
  let tail :=
    if r.2.1 > 0 then
      Effect.broadcast req.sessionId "read" ::
        (match r.1.getSession req.sessionId with
         | some _ => notifyBridgesRead cfg.bridges
         | none => [])
    else []
  ({ st with storage := r.1 }, { updated := r.2.1 }, r.2.2 ++ tail)

/-- Whether an id resolves to a stored message belonging to the given session. -/
def matchesSession (storage : Storage) (sid mid : String) : Bool :=
  match storage.getMessage mid with
  | some m => m.sessionId == sid
  | none => false

/-- One step of the backward scan of _check_ai_takeover (core.py lines 393-397):
the first visitor timestamp and the first operator-or-AI timestamp win. -/
def scanStep (acc : Option Int × Option Int) (m : Message) : Option Int × Option Int :=
  if m.sender == Sender.visitor && acc.1.isNone then (some m.timestamp, acc.2)
  else if (m.sender == Sender.operator || m.sender == Sender.ai) && acc.2.isNone then
    (acc.1, some m.timestamp)
  else acc

/-- The scan over the fetched window from most recent backward. -/
def scanTimes (messages : List Message) : Option Int × Option Int :=
  messages.reverse.foldl scanStep (none, none)

/-- The operator-activity freshness gate of _check_ai_takeover (core.py lines
378-382): a truthy recorded activity fresher than the delay blocks takeover. -/
def opActivityBlocks (lastOp : Option Int) (delay now : Int) : Bool :=
  pyTruthyTime lastOp && decide (now - lastOp.getD 0 < delay)

/-- Embeds _check_ai_takeover (core.py lines 369-408). `messages` is the fetched
window (storage get_messages with limit 10), `lastOp` the activity-map lookup,
`now` the current time. -/
def checkAiTakeover (hasProvider : Bool) (delay : Int) (session : Session)
    (lastOp : Option Int) (messages : List Message) (now : Int) : Bool :=
  if !hasProvider then false
  else if session.aiActive then false
  else if opActivityBlocks lastOp delay now then false
  else if messages.isEmpty then false
  else
    match scanTimes messages with
    | (none, _) => false
    | (some tv, r) =>
      let predates :=
        match r with
        | none => true
        | some tr => decide (tr < tv)
      if predates then decide (now - tv ≥ delay) else false

/-- The message record handle_message constructs (core.py lines 155-162). -/
def mkMessage (freshId : String) (req : SendMessageRequest) (now : Int) : Message :=
  { id := freshId, sessionId := req.sessionId, content := req.content,
    sender := req.sender, timestamp := now, replyTo := req.replyTo }

/-- Concrete session used by several closed checks below. -/
def cSession : Session :=
  { id := "s1", visitorId := "v1", createdAt := 0, lastActivity := 0 }

/-- Concrete window for the takeover tie counterexample: an operator reply and a
visitor message carrying the same timestamp. -/
def c1operatorMsg : Message :=
  { id := "m2", sessionId := "s1", content := "a", sender := .operator, timestamp := 0 }

def c1visitorMsg : Message :=
  { id := "m1", sessionId := "s1", content := "q", sender := .visitor, timestamp := 0 }

def c1window : List Message := [c1operatorMsg, c1visitorMsg]

/-- Concrete unanswered visitor message for the takeover boundary witness. -/
def c1soleMsg : Message :=
  { id := "m1", sessionId := "s1", content := "q", sender := .visitor, timestamp := 5 }

/-- Concrete state for the operator-silences-AI witness. -/
def c2session : Session :=
  { id := "s1", visitorId := "v1", createdAt := 0, lastActivity := 0, aiActive := true }

def c2state : CoreState := { storage := { sessions := [c2session] } }

def c2req : SendMessageRequest := { sessionId := "s1", content := "hi", sender := .operator }

/-- Concrete request naming an absent session. -/
def c3req : SendMessageRequest := { sessionId := "ghost", content := "hi", sender := .visitor }

/-- Concrete state for the metadata-merge checks: the stored session knows a
page url and server-derived geo fields. -/
def c4meta : SessionMetadata :=
  { url := some "https://a.example/page", ip := some "9.9.9.9", country := some "FR",
    city := some "Paris" }

def c4session : Session :=
  { id := "s1", visitorId := "v1", createdAt := 0, lastActivity := 0,
    metadata := some c4meta }

def c4state : CoreState := { storage := { sessions := [c4session] } }

/-- Concrete resume request whose metadata leaves every field unset. -/
def c4req : ConnectRequest :=
  { visitorId := "v1", sessionId := some "s1", metadata := some {} }

/-- Concrete state for the read-receipt checks: one session holding one message. -/
def c5msg : Message :=
  { id := "m1", sessionId := "s1", content := "q", sender := .visitor, timestamp := 0 }

def c5state : CoreState :=
  { storage := { sessions := [cSession], messages := [c5msg] } }

/-- Concrete read request listing the same message id twice. -/
def c5req : ReadRequest := { sessionId := "s1", messageIds := ["m1", "m1"], status := .read }

/-- Concrete single-id read request for the read-monotonicity witness. -/
def c6req : ReadRequest := { sessionId := "s1", messageIds := ["m1"], status := .read }

/-- Concrete bridges for the isolation witness: the first raises in on_message. -/
def c7badBridge : Bridge := { name := "bad", onMessageOk := false }

def c7goodBridge : Bridge := { name := "good" }

def c7cfg : Config := { bridges := [c7badBridge, c7goodBridge], hasOnMessage := true }

def c7state : CoreState := { storage := { sessions := [cSession] } }

def c7req : SendMessageRequest := { sessionId := "s1", content := "help", sender := .visitor }

/-- Concrete resume request leaving the geo fields unset but carrying a url. -/
def c9incoming : SessionMetadata := { url := some "https://a.example/next" }

def c9req : ConnectRequest :=
  { visitorId := "v1", sessionId := some "s1", metadata := some c9incoming }

/-- Concrete state for the get-messages witnesses: messages exist only for s1. -/
def c10state : CoreState :=
  { storage := { sessions := [cSession], messages := [c5msg] } }

/-- Replacing, in a list, every element with the key of a given element by that
element lets a search for that key find exactly the replacement. -/
theorem find?_replace_eq {α : Type} (idf : α → String) (a' : α) (l : List α)
    (hex : (l.find? (fun x => idf x == idf a')).isSome = true) :
    (l.map (fun x => if idf x == idf a' then a' else x)).find? (fun x => idf x == idf a')
      = some a' := by
  induction l with
  | nil => simp at hex
  | cons a t ih =>
    by_cases h : (idf a == idf a') = true
    · simp only [List.map_cons, h, if_true, List.find?_cons, beq_self_eq_true]
    · have h' : (idf a == idf a') = false := by simpa using h
      simp only [List.map_cons, h', Bool.false_eq_true, if_false, List.find?_cons]
      apply ih
      simpa only [List.find?_cons, h'] using hex

/-- The replacement of find?_replace_eq is invisible to a search for any other key. -/
theorem find?_replace_ne {α : Type} (idf : α → String) (a' : α) (x : String) (l : List α)
    (hne : x ≠ idf a') :
    (l.map (fun e => if idf e == idf a' then a' else e)).find? (fun e => idf e == x)
      = l.find? (fun e => idf e == x) := by
  induction l with
  | nil => rfl
  | cons a t ih =>
    by_cases h : (idf a == idf a') = true
    · have ha : idf a = idf a' := by simpa using h
      have pa' : (idf a' == x) = false := beq_eq_false_iff_ne.mpr (fun hh => hne hh.symm)
      have pa : (idf a == x) = false := by rw [ha]; exact pa'
      simp only [List.map_cons, h, if_true, List.find?_cons, pa', pa]
      exact ih
    · have h' : (idf a == idf a') = false := by simpa using h
      simp only [List.map_cons, h', Bool.false_eq_true, if_false, List.find?_cons]
      cases hx : (idf a == x) with
      | true => rfl
      | false => exact ih

theorem saveMessage_sessions (st : Storage) (m : Message) :
    (st.saveMessage m).sessions = st.sessions := by
  unfold Storage.saveMessage
  split <;> rfl

theorem getSession_saveMessage (st : Storage) (m : Message) (sid : String) :
    (st.saveMessage m).getSession sid = st.getSession sid := by
  unfold Storage.getSession
  rw [saveMessage_sessions]

theorem getMessage_updateSession (st : Storage) (s : Session) (mid : String) :
    (st.updateSession s).getMessage mid = st.getMessage mid := rfl

/-- After update_session, looking the updated id up yields the new record,
provided a record with that id was stored. -/
theorem getSession_updateSession_self (st : Storage) (s' : Session)
    (hex : (st.getSession s'.id).isSome = true) :
    (st.updateSession s').getSession s'.id = some s' := by
  unfold Storage.getSession Storage.updateSession
  unfold Storage.getSession at hex
  exact find?_replace_eq Session.id s' st.sessions hex

/-- After save_message of an already-stored id, looking that id up yields the
new record. -/
theorem getMessage_saveMessage_self (st : Storage) (m' : Message)
    (hex : (st.getMessage m'.id).isSome = true) :
    (st.saveMessage m').getMessage m'.id = some m' := by
  have hany : st.messages.any (fun x => x.id == m'.id) = true := by
    rw [List.any_eq_true]
    unfold Storage.getMessage at hex
    obtain ⟨x, hx, hpx⟩ := List.find?_isSome.mp hex
    exact ⟨x, hx, hpx⟩
  unfold Storage.saveMessage Storage.getMessage
  rw [hany]
  simp only [if_true]
  unfold Storage.getMessage at hex
  exact find?_replace_eq Message.id m' st.messages hex

/-- save_message leaves every other message id untouched. -/
theorem getMessage_saveMessage_ne (st : Storage) (m' : Message) (x : String)
    (hne : x ≠ m'.id) :
    (st.saveMessage m').getMessage x = st.getMessage x := by
  unfold Storage.saveMessage Storage.getMessage
  split
  · exact find?_replace_ne Message.id m' x st.messages hne
  · rw [List.find?_append]
    have hlast : [m'].find? (fun m => m.id == x) = none := by
      simp [List.find?, beq_eq_false_iff_ne.mpr (fun hh => hne hh.symm)]
    rw [hlast]
    cases st.messages.find? (fun m => m.id == x) <;> rfl

theorem applyStatus_id (status : MessageStatus) (now : Int) (m : Message) :
    (applyStatus status now m).id = m.id := by
  cases status <;> rfl

theorem applyStatus_sessionId (status : MessageStatus) (now : Int) (m : Message) :
    (applyStatus status now m).sessionId = m.sessionId := by
  cases status <;> rfl

/-- A found message has the id that was searched for. -/
theorem getMessage_id (st : Storage) (mid : String) (m : Message)
    (h : st.getMessage mid = some m) : m.id = mid := by
  unfold Storage.getMessage at h
  have := List.find?_some h
  simpa using this

/-- A found session has the id that was searched for. -/
theorem getSession_id (st : Storage) (sid : String) (s : Session)
    (h : st.getSession sid = some s) : s.id = sid := by
  unfold Storage.getSession at h
  have := List.find?_some h
  simpa using this

/-- Saving the status update of a stored message changes no membership fact of
the form "this id resolves to a message of that session". -/
theorem matchesSession_saveMessage (storage : Storage) (sid : String)
    (status : MessageStatus) (now : Int) (mid : String) (m : Message)
    (h : storage.getMessage mid = some m) (x : String) :
    matchesSession (storage.saveMessage (applyStatus status now m)) sid x
      = matchesSession storage sid x := by
  have hid : m.id = mid := getMessage_id storage mid m h
  by_cases hx : x = (applyStatus status now m).id
  · have hx' : x = mid := by rw [hx, applyStatus_id, hid]
    have hex : (storage.getMessage (applyStatus status now m).id).isSome = true := by
      rw [applyStatus_id, hid, h]; rfl
    unfold matchesSession
    rw [hx, getMessage_saveMessage_self _ _ hex, applyStatus_id, hid, h]
    simp only [applyStatus_sessionId]
  · unfold matchesSession
    rw [getMessage_saveMessage_ne _ _ _ hx]

/-- The updated count of the read loop equals the number of listed ids, with
multiplicity, that resolve to a message of the session. -/
theorem readLoop_updated (sid : String) (status : MessageStatus) (now : Int) :
    ∀ (ids : List String) (storage : Storage),
      (readLoop storage sid status now ids).2.1
        = ids.countP (fun mid => matchesSession storage sid mid) := by
  intro ids
  induction ids with
  | nil => intro storage; rfl
  | cons mid rest ih =>
    intro storage
    rw [List.countP_cons]
    unfold readLoop
    cases h : storage.getMessage mid with
    | none =>
      have hm : matchesSession storage sid mid = false := by
        unfold matchesSession; rw [h]
      simp only [hm, Bool.false_eq_true, if_false, Nat.add_zero]
      exact ih storage
    | some m =>
      cases hs : (m.sessionId == sid) with
      | false =>
        have hm : matchesSession storage sid mid = false := by
          unfold matchesSession; rw [h]; exact hs
        simp only [hs, Bool.false_eq_true, if_false, hm, Nat.add_zero]
        exact ih storage
      | true =>
        have hm : matchesSession storage sid mid = true := by
          unfold matchesSession; rw [h]; exact hs
        simp only [hs, if_true, hm]
        rw [ih (storage.saveMessage (applyStatus status now m))]
        have hcong : rest.countP (fun x => matchesSession
              (storage.saveMessage (applyStatus status now m)) sid x)
            = rest.countP (fun x => matchesSession storage sid x) :=
          List.countP_congr (fun x _ => by
            rw [matchesSession_saveMessage storage sid status now mid m h x])
        rw [hcong]

/-- The read loop never touches the session table. -/
theorem readLoop_sessions (sid : String) (status : MessageStatus) (now : Int) :
    ∀ (ids : List String) (storage : Storage),
      ((readLoop storage sid status now ids).1).sessions = storage.sessions := by
  intro ids
  induction ids with
  | nil => intro storage; rfl
  | cons mid rest ih =>
    intro storage
    unfold readLoop
    cases h : storage.getMessage mid with
    | none => exact ih storage
    | some m =>
      cases hs : (m.sessionId == sid) with
      | false => simp only [hs, Bool.false_eq_true, if_false]; exact ih storage
      | true =>
        simp only [hs, if_true]
        rw [ih (storage.saveMessage (applyStatus status now m)), saveMessage_sessions]

/-- Every effect of the read loop is the save of a listed message of the session. -/
theorem readLoop_effects (sid : String) (status : MessageStatus) (now : Int) :
    ∀ (ids : List String) (storage : Storage),
      ∀ e ∈ (readLoop storage sid status now ids).2.2,
        ∃ m, e = Effect.saveMessage m ∧ m.id ∈ ids ∧ m.sessionId = sid := by
  intro ids
  induction ids with
  | nil => intro storage e he; exact absurd he (List.not_mem_nil e)
  | cons mid rest ih =>
    intro storage e he
    unfold readLoop at he
    cases h : storage.getMessage mid with
    | none =>
      rw [h] at he
      obtain ⟨m, hm1, hm2, hm3⟩ := ih storage e he
      exact ⟨m, hm1, List.mem_cons_of_mem _ hm2, hm3⟩
    | some m =>
      rw [h] at he
      cases hs : (m.sessionId == sid) with
      | false =>
        simp only [hs, Bool.false_eq_true, if_false] at he
        obtain ⟨mm, hm1, hm2, hm3⟩ := ih storage e he
        exact ⟨mm, hm1, List.mem_cons_of_mem _ hm2, hm3⟩
      | true =>
        simp only [hs, if_true, List.mem_cons] at he
        cases he with
        | inl heq =>
          refine ⟨applyStatus status now m, heq, ?_, ?_⟩
          · rw [applyStatus_id, getMessage_id storage mid m h]
            exact List.mem_cons_self _ _
          · rw [applyStatus_sessionId]
            simpa using hs
        | inr hmem =>
          obtain ⟨mm, hm1, hm2, hm3⟩ := ih (storage.saveMessage (applyStatus status now m)) e hmem
          exact ⟨mm, hm1, List.mem_cons_of_mem _ hm2, hm3⟩

/-- Dict assignment followed by a lookup of the same key, replace branch. -/
theorem find?_set_mem (l : List (String × Int)) (k : String) (v : Int)
    (h : l.any (fun p => p.1 == k) = true) :
    (l.map (fun p => if p.1 == k then (k, v) else p)).find? (fun p => p.1 == k)
      = some (k, v) := by
  induction l with
  | nil => simp at h
  | cons p t ih =>
    cases hp : (p.1 == k) with
    | true =>
      simp only [List.map_cons, hp, if_true, List.find?_cons, beq_self_eq_true]
    | false =>
      simp only [List.map_cons, hp, Bool.false_eq_true, if_false, List.find?_cons]
      apply ih
      simpa [hp] using h

/-- Dict assignment followed by a lookup of the same key, append branch. -/
theorem find?_set_append (l : List (String × Int)) (k : String) (v : Int)
    (h : l.any (fun p => p.1 == k) = false) :
    (l ++ [(k, v)]).find? (fun p => p.1 == k) = some (k, v) := by
  induction l with
  | nil => simp [List.find?_cons]
  | cons p t ih =>
    rw [List.any_cons] at h
    have hp : (p.1 == k) = false := (Bool.or_eq_false_iff.mp h).1
    have ht : t.any (fun q => q.1 == k) = false := (Bool.or_eq_false_iff.mp h).2
    rw [List.cons_append]
    simp only [List.find?_cons, hp]
    exact ih ht

/-- Dict assignment followed by a lookup of the same key yields the new value. -/
theorem lookup_set (l : List (String × Int)) (k : String) (v : Int) :
    lookupActivity (setActivity l k v) k = some v := by
  unfold setActivity lookupActivity
  cases h : l.any (fun p => p.1 == k) with
  | true => simp only [h, if_true, find?_set_mem l k v h, Option.map_some']
  | false => simp only [h, Bool.false_eq_true, if_false, find?_set_append l k v h,
      Option.map_some']

/-- Every element of the per-bridge part of the read dispatch is a bridgeRead
or a bridgeErrorLog effect. -/
theorem notifyBridgesRead_tail_forms (bridges : List Bridge) :
    ∀ e ∈ bridges.filterMap (fun b =>
      if b.hasOnMessageRead then
        some (if b.onMessageReadOk then Effect.bridgeRead b.name
          else Effect.bridgeErrorLog b.name)
      else none),
      ∃ n, e = Effect.bridgeRead n ∨ e = Effect.bridgeErrorLog n := by
  intro e he
  rw [List.mem_filterMap] at he
  obtain ⟨b, _, hb⟩ := he
  by_cases hh : b.hasOnMessageRead = true
  · by_cases ho : b.onMessageReadOk = true
    · simp only [hh, if_true, ho, Option.some.injEq] at hb
      exact ⟨b.name, Or.inl hb.symm⟩
    · have ho' : b.onMessageReadOk = false := by simpa using ho
      simp only [hh, if_true, ho', Bool.false_eq_true, if_false, Option.some.injEq] at hb
      exact ⟨b.name, Or.inr hb.symm⟩
  · have hh' : b.hasOnMessageRead = false := by simpa using hh
    simp [hh'] at hb

/-- Claim C3: a send_message request whose session id resolves to no session
fails with the Session-not-found error, surfaced as HTTP 404 by the transport
route, and the core state is returned unchanged with no effects: nothing is
persisted and no session is modified on this error path. -/
theorem claimC3 (cfg : Config) (st : CoreState) (now : Int) (freshId : String)
    (req : SendMessageRequest) (h : st.storage.getSession req.sessionId = none) :
    handleMessage cfg st now freshId req = (st, Except.error "Session not found") ∧
    sendMessageHttpStatus cfg st now freshId req = 404 := by
  have h1 : handleMessage cfg st now freshId req
      = (st, Except.error "Session not found") := by
    unfold handleMessage
    rw [h]
  refine ⟨h1, ?_⟩
  unfold sendMessageHttpStatus
  rw [h1]

/-- Witness for claim C3 at a concrete absent session id. -/
theorem claimC3_witness :
    handleMessage {} {} 0 "m1" c3req = ({}, Except.error "Session not found") ∧
    sendMessageHttpStatus {} {} 0 "m1" c3req = 404 :=
  claimC3 {} {} 0 "m1" c3req (by decide)

/-- Claim C8: the returned page of handle_get_messages holds at most
min(limit, 100) messages, and hasMore is true exactly when the storage holds a
further message of the session beyond the returned page. -/
theorem claimC8 (st : CoreState) (sid : String) (after : Option String) (L : Nat) :
    (handleGetMessages st sid after L).messages.length ≤ min L 100 ∧
    ((handleGetMessages st sid after L).hasMore = true ↔
      (handleGetMessages st sid after L).messages.length
        < (st.storage.messagesFor sid after).length) := by
  unfold handleGetMessages Storage.getMessages
  constructor
  · simp only [List.take_take, List.length_take]
    omega
  · simp only [List.take_take, List.length_take, decide_eq_true_eq, gt_iff_lt]
    omega

/-- Claim C10: handle_get_messages checks no session existence and raises no
error: any session id for which the storage yields no messages, including ids
naming no session at all, produces the empty page with hasMore false. -/
theorem claimC10 (st : CoreState) (sid : String) (after : Option String) (L : Nat)
    (h : st.storage.messages.filter (fun m => m.sessionId == sid) = []) :
    handleGetMessages st sid after L = { messages := [], hasMore := false } := by
  have hbase : st.storage.messagesFor sid after = [] := by
    unfold Storage.messagesFor
    cases after with
    | none => exact h
    | some aid => rw [h]; rfl
  unfold handleGetMessages Storage.getMessages
  rw [hbase]
  simp

/-- Witness for claim C10: an id naming no session, in a storage that does hold
messages of another session, yields the empty page and no error. -/
theorem claimC10_witness :
    c10state.storage.getSession "ghost" = none ∧
    handleGetMessages c10state "ghost" none 50 = { messages := [], hasMore := false } :=
  ⟨by decide, claimC10 c10state "ghost" none 50 (by decide)⟩

/-- The scan of the empty window finds nothing. -/
theorem scanTimes_nil : scanTimes [] = (none, none) := rfl

/-- Claim C1 (amended): for a session with ai_active false, a configured AI
provider and no operator activity blocking at evaluation time, whose window
scan finds the most recent visitor message at time T with every
operator-or-AI response strictly older than T, the takeover decision is false
at T plus D minus 1 and true at T plus D: the boundary is inclusive. -/
theorem claimC1 (session : Session) (lastOp : Option Int) (messages : List Message)
    (T D : Int) (hD : 1 ≤ D) (hActive : session.aiActive = false)
    (hOp : opActivityBlocks lastOp D (T + D) = false)
    (hScanV : (scanTimes messages).1 = some T)
    (hScanR : ∀ tr, (scanTimes messages).2 = some tr → tr < T) :
    checkAiTakeover true D session lastOp messages (T + D - 1) = false ∧
    checkAiTakeover true D session lastOp messages (T + D) = true := by
  rcases hsc : scanTimes messages with ⟨v, r⟩
  rw [hsc] at hScanV hScanR
  have hv : v = some T := hScanV
  subst hv
  have hne : messages.isEmpty = false := by
    cases messages with
    | nil => rw [scanTimes_nil] at hsc; cases hsc
    | cons a t => rfl
  constructor
  · unfold checkAiTakeover
    rw [hsc]
    cases hb : opActivityBlocks lastOp D (T + D - 1) with
    | true => simp [hActive, hb]
    | false =>
      have hd : decide (T + D - 1 - T ≥ D) = false := by
        rw [decide_eq_false_iff_not]; omega
      cases r with
      | none => simp [hActive, hb, hne, hd]
      | some tr =>
        cases htr : decide (tr < T) with
        | true => simp [hActive, hb, hne, hd, htr]
        | false => simp [hActive, hb, hne, htr]
  · unfold checkAiTakeover
    rw [hsc]
    have hd : decide (T + D - T ≥ D) = true := by
      rw [decide_eq_true_eq]; omega
    cases r with
    | none => simp [hActive, hOp, hne, hd]
    | some tr =>
      have htr : decide (tr < T) = true := by
        rw [decide_eq_true_eq]; exact hScanR tr rfl
      simp [hActive, hOp, hne, hd, htr]

/-- Witness for claim C1 at a concrete unanswered visitor message: timestamp 5,
delay 300, decision false at 304 and true at 305. -/
theorem claimC1_witness :
    checkAiTakeover true 300 cSession none [c1soleMsg] (5 + 300 - 1) = false ∧
    checkAiTakeover true 300 cSession none [c1soleMsg] (5 + 300) = true :=
  claimC1 cSession none [c1soleMsg] 5 300 (by decide) (by decide) (by decide)
    (by decide)
    (by
      intro tr h
      rw [(by decide : (scanTimes [c1soleMsg]).2 = (none : Option Int))] at h
      cases h)

/-- Counterexample for claim C1 as stated: in a window whose most recent
visitor message is at T = 0 and whose only response also carries timestamp 0,
no response is more recent than the visitor message, yet the decision at
T plus D is false, because the code requires the response to be strictly
older. -/
theorem claimC1_counterexample :
    (scanTimes c1window).1 = some 0 ∧
    (scanTimes c1window).2 = some 0 ∧
    cSession.aiActive = false ∧
    checkAiTakeover true 300 cSession none c1window 300 = false := by decide

/-- Resuming an existing session by id with incoming metadata stores the merged
record: geo fields via the Python or-merge, every other field taken from the
incoming metadata. -/
theorem handleConnect_resume (cfg : Config) (st : CoreState) (now : Int)
    (freshId : String) (req : ConnectRequest) (sid : String) (session : Session)
    (em md : SessionMetadata)
    (hsid : req.sessionId = some sid) (hne : sid ≠ "")
    (hs : st.storage.getSession sid = some session)
    (hm : session.metadata = some em) (hreq : req.metadata = some md) :
    (handleConnect cfg st now freshId req).1.storage.getSession sid
      = some { session with
          metadata := some { md with
            ip := strOr em.ip md.ip
            country := strOr em.country md.country
            city := strOr em.city md.city }
          lastActivity := now } := by
  have hbeq : (sid == "") = false := beq_eq_false_iff_ne.mpr hne
  have hid : session.id = sid := getSession_id st.storage sid session hs
  simp only [handleConnect, hsid, hbeq, Bool.false_eq_true, if_false, hs, hreq, hm]
  have hex : (st.storage.getSession session.id).isSome = true := by
    rw [hid, hs]; rfl
  rw [← hid]
  exact getSession_updateSession_self st.storage _ hex

/-- Claim C4 (amended): resuming an existing session with incoming metadata is
fill-missing only for the server-derived geo fields ip, country, city; every
other metadata field of the stored session is replaced by the incoming value,
even when the incoming value is unset. -/
theorem claimC4 (cfg : Config) (st : CoreState) (now : Int) (freshId : String)
    (req : ConnectRequest) (sid : String) (session : Session) (em md : SessionMetadata)
    (hsid : req.sessionId = some sid) (hne : sid ≠ "")
    (hs : st.storage.getSession sid = some session)
    (hm : session.metadata = some em) (hreq : req.metadata = some md) :
    ∃ s' m', (handleConnect cfg st now freshId req).1.storage.getSession sid = some s'
      ∧ s'.metadata = some m'
      ∧ m'.url = md.url ∧ m'.referrer = md.referrer ∧ m'.pageTitle = md.pageTitle
      ∧ m'.userAgent = md.userAgent ∧ m'.timezone = md.timezone
      ∧ m'.language = md.language ∧ m'.screenResolution = md.screenResolution
      ∧ m'.deviceType = md.deviceType ∧ m'.browser = md.browser ∧ m'.os = md.os
      ∧ m'.ip = strOr em.ip md.ip ∧ m'.country = strOr em.country md.country
      ∧ m'.city = strOr em.city md.city := by
  refine ⟨_, _, handleConnect_resume cfg st now freshId req sid session em md
    hsid hne hs hm hreq, rfl, ?_⟩
  exact ⟨rfl, rfl, rfl, rfl, rfl, rfl, rfl, rfl, rfl, rfl, rfl, rfl, rfl⟩

/-- Witness for claim C4 (amended) at a concrete resume request. -/
theorem claimC4_witness :
    ∃ s' m', (handleConnect {} c4state 10 "f1" c4req).1.storage.getSession "s1" = some s'
      ∧ s'.metadata = some m'
      ∧ m'.url = SessionMetadata.url {} ∧ m'.referrer = SessionMetadata.referrer {}
      ∧ m'.pageTitle = SessionMetadata.pageTitle {}
      ∧ m'.userAgent = SessionMetadata.userAgent {}
      ∧ m'.timezone = SessionMetadata.timezone {}
      ∧ m'.language = SessionMetadata.language {}
      ∧ m'.screenResolution = SessionMetadata.screenResolution {}
      ∧ m'.deviceType = SessionMetadata.deviceType {}
      ∧ m'.browser = SessionMetadata.browser {} ∧ m'.os = SessionMetadata.os {}
      ∧ m'.ip = strOr c4meta.ip (SessionMetadata.ip {})
      ∧ m'.country = strOr c4meta.country (SessionMetadata.country {})
      ∧ m'.city = strOr c4meta.city (SessionMetadata.city {}) :=
  claimC4 {} c4state 10 "f1" c4req "s1" c4session c4meta {} (by decide)
    (by decide) (by decide) (by decide) (by decide)

/-- Counterexample for claim C4 as stated: the stored session knows a page url,
the incoming metadata leaves it unset, and the resume overwrites it with the
unset value, so the merge is not fill-missing for every field. -/
theorem claimC4_counterexample :
    (c4state.storage.getSession "s1").map (fun s => s.metadata.map (fun m => m.url))
      = some (some (some "https://a.example/page")) ∧
    ((handleConnect {} c4state 10 "f1" c4req).1.storage.getSession "s1").map
        (fun s => s.metadata.map (fun m => m.url))
      = some (some none) := by decide

/-- Claim C9: resuming an existing session with incoming metadata preserves the
previously known server-derived geo fields ip, country and city: a field the
incoming metadata leaves unset still carries the previously stored value. -/
theorem claimC9 (cfg : Config) (st : CoreState) (now : Int) (freshId : String)
    (req : ConnectRequest) (sid : String) (session : Session) (em md : SessionMetadata)
    (hsid : req.sessionId = some sid) (hne : sid ≠ "")
    (hs : st.storage.getSession sid = some session)
    (hm : session.metadata = some em) (hreq : req.metadata = some md) :
    ∃ s' m', (handleConnect cfg st now freshId req).1.storage.getSession sid = some s'
      ∧ s'.metadata = some m'
      ∧ (∀ v, em.ip = some v → v ≠ "" → md.ip = none → m'.ip = some v)
      ∧ (∀ v, em.country = some v → v ≠ "" → md.country = none → m'.country = some v)
      ∧ (∀ v, em.city = some v → v ≠ "" → md.city = none → m'.city = some v) := by
  refine ⟨_, _, handleConnect_resume cfg st now freshId req sid session em md
    hsid hne hs hm hreq, rfl, ?_, ?_, ?_⟩
  · intro v hv hv' _
    show strOr em.ip md.ip = some v
    rw [hv]
    simp [strOr, pyTruthyStr, hv']
  · intro v hv hv' _
    show strOr em.country md.country = some v
    rw [hv]
    simp [strOr, pyTruthyStr, hv']
  · intro v hv hv' _
    show strOr em.city md.city = some v
    rw [hv]
    simp [strOr, pyTruthyStr, hv']

/-- Witness for claim C9 at a concrete resume request omitting the geo fields. -/
theorem claimC9_witness :
    ∃ s' m', (handleConnect {} c4state 10 "f2" c9req).1.storage.getSession "s1" = some s'
      ∧ s'.metadata = some m'
      ∧ (∀ v, c4meta.ip = some v → v ≠ "" → c9incoming.ip = none → m'.ip = some v)
      ∧ (∀ v, c4meta.country = some v → v ≠ "" → c9incoming.country = none
          → m'.country = some v)
      ∧ (∀ v, c4meta.city = some v → v ≠ "" → c9incoming.city = none
          → m'.city = some v) :=
  claimC9 {} c4state 10 "f2" c9req "s1" c4session c4meta c9incoming (by decide)
    (by decide) (by decide) (by decide) (by decide)

/-- Looking a session up after a message save and two session updates of that
same id yields the second update. -/
theorem getSession_update_update (st0 : Storage) (m : Message) (s1 s2 : Session)
    (sid : String) (hex : (st0.getSession sid).isSome = true)
    (h1 : s1.id = sid) (h2 : s2.id = sid) :
    ((((st0.saveMessage m).updateSession s1).updateSession s2)).getSession sid
      = some s2 := by
  have e1 : (((st0.saveMessage m).updateSession s1).getSession sid).isSome = true := by
    rw [← h1, getSession_updateSession_self (st0.saveMessage m) s1
      (by rw [h1, getSession_saveMessage]; exact hex)]
    rfl
  rw [← h2]
  exact getSession_updateSession_self _ _ (by rw [h2]; exact e1)

/-- Computation of handle_message on the operator path of a session with
ai_active true: the message is saved, the session activity stamped, the AI
flag cleared and persisted, then the broadcast and optional callback follow. -/
theorem handleMessage_operator_ai (cfg : Config) (st : CoreState) (now : Int)
    (freshId : String) (req : SendMessageRequest) (session : Session)
    (hs : st.storage.getSession req.sessionId = some session)
    (ha : session.aiActive = true) (hop : req.sender = Sender.operator) :
    handleMessage cfg st now freshId req =
      ({ storage := ((st.storage.saveMessage (mkMessage freshId req now)).updateSession
            { session with lastActivity := now }).updateSession
            { session with lastActivity := now, aiActive := false },
         lastOperatorActivity := setActivity st.lastOperatorActivity req.sessionId now,
         operatorOnline := st.operatorOnline },
       Except.ok ({ messageId := freshId, timestamp := now },
         Effect.saveMessage (mkMessage freshId req now)
           :: Effect.updateSession { session with lastActivity := now }
           :: Effect.updateSession { session with lastActivity := now, aiActive := false }
           :: Effect.broadcast req.sessionId "message"
           :: (if cfg.hasOnMessage then
                [Effect.messageCallback (mkMessage freshId req now)] else []))) := by
  have hb1 : (req.sender == Sender.operator) = true := by rw [hop]; rfl
  have hb2 : (req.sender == Sender.visitor) = false := by rw [hop]; rfl
  unfold handleMessage
  rw [hs, hb1, hb2]
  dsimp only
  rw [ha]
  rfl

/-- Computation of handle_message on the visitor path: the message is saved, the
session activity stamped, the bridges notified, then broadcast and callback. -/
theorem handleMessage_visitor (cfg : Config) (st : CoreState) (now : Int)
    (freshId : String) (req : SendMessageRequest) (session : Session)
    (hs : st.storage.getSession req.sessionId = some session)
    (hvis : req.sender = Sender.visitor) :
    handleMessage cfg st now freshId req =
      ({ storage := (st.storage.saveMessage (mkMessage freshId req now)).updateSession
            { session with lastActivity := now },
         lastOperatorActivity := st.lastOperatorActivity,
         operatorOnline := st.operatorOnline },
       Except.ok ({ messageId := freshId, timestamp := now },
         Effect.saveMessage (mkMessage freshId req now)
           :: Effect.updateSession { session with lastActivity := now }
           :: (notifyBridgesMessage cfg.bridges
               ++ Effect.broadcast req.sessionId "message"
               :: (if cfg.hasOnMessage then
                    [Effect.messageCallback (mkMessage freshId req now)] else [])))) := by
  have hb1 : (req.sender == Sender.operator) = false := by rw [hvis]; rfl
  have hb2 : (req.sender == Sender.visitor) = true := by rw [hvis]; rfl
  unfold handleMessage
  rw [hs, hb1, hb2]
  rfl

/-- Claim C2: ingesting an operator message into a session whose ai_active flag
is true clears the flag and persists the updated session before any bridge
notification or realtime broadcast, and records the operator activity
timestamp for the session in the same step. -/
theorem claimC2 (cfg : Config) (st : CoreState) (now : Int) (freshId : String)
    (req : SendMessageRequest) (session : Session)
    (hs : st.storage.getSession req.sessionId = some session)
    (ha : session.aiActive = true) (hop : req.sender = Sender.operator) :
    ∃ st' resp effs,
      handleMessage cfg st now freshId req = (st', Except.ok (resp, effs)) ∧
      (∃ s', st'.storage.getSession req.sessionId = some s' ∧ s'.aiActive = false) ∧
      lookupActivity st'.lastOperatorActivity req.sessionId = some now ∧
      ∃ l₁ s₂ l₂, effs = l₁ ++ Effect.updateSession s₂ :: l₂ ∧ s₂.aiActive = false ∧
        ∀ e ∈ l₁, isNotify e = false := by
  have hid : session.id = req.sessionId := getSession_id _ _ _ hs
  refine ⟨_, _, _, handleMessage_operator_ai cfg st now freshId req session hs ha hop,
    ?_, ?_, ?_⟩
  · exact ⟨{ session with lastActivity := now, aiActive := false },
      getSession_update_update st.storage (mkMessage freshId req now)
        { session with lastActivity := now }
        { session with lastActivity := now, aiActive := false } req.sessionId
        (by rw [hs]; rfl) hid hid, rfl⟩
  · exact lookup_set st.lastOperatorActivity req.sessionId now
  · refine ⟨[Effect.saveMessage (mkMessage freshId req now),
      Effect.updateSession { session with lastActivity := now }],
      { session with lastActivity := now, aiActive := false },
      Effect.broadcast req.sessionId "message"
        :: (if cfg.hasOnMessage then
            [Effect.messageCallback (mkMessage freshId req now)] else []),
      rfl, rfl, ?_⟩
    intro e he
    simp only [List.mem_cons, List.not_mem_nil, or_false] at he
    rcases he with rfl | rfl <;> rfl

/-- Witness for claim C2 at a concrete operator message into an AI-active
session. -/
theorem claimC2_witness :
    ∃ st' resp effs,
      handleMessage {} c2state 7 "m9" c2req = (st', Except.ok (resp, effs)) ∧
      (∃ s', st'.storage.getSession c2req.sessionId = some s' ∧ s'.aiActive = false) ∧
      lookupActivity st'.lastOperatorActivity c2req.sessionId = some 7 ∧
      ∃ l₁ s₂ l₂, effs = l₁ ++ Effect.updateSession s₂ :: l₂ ∧ s₂.aiActive = false ∧
        ∀ e ∈ l₁, isNotify e = false :=
  claimC2 {} c2state 7 "m9" c2req c2session (by decide) (by decide) (by decide)

/-- Claim C7: for a visitor message, a bridge whose on_message hook raises is
logged and skipped; every well-behaved bridge is still notified, the realtime
broadcast still fires and the registered message callback still runs. -/
theorem claimC7 (cfg : Config) (st : CoreState) (now : Int) (freshId : String)
    (req : SendMessageRequest) (session : Session)
    (hs : st.storage.getSession req.sessionId = some session)
    (hvis : req.sender = Sender.visitor) (hcb : cfg.hasOnMessage = true)
    (hbad : ∃ b ∈ cfg.bridges, b.onMessageOk = false) :
    ∃ st' resp effs,
      handleMessage cfg st now freshId req = (st', Except.ok (resp, effs)) ∧
      (∀ b ∈ cfg.bridges, b.onMessageOk = false → Effect.bridgeErrorLog b.name ∈ effs) ∧
      (∀ b ∈ cfg.bridges, b.onMessageOk = true → Effect.bridgeMessage b.name ∈ effs) ∧
      Effect.broadcast req.sessionId "message" ∈ effs ∧
      (∃ m, Effect.messageCallback m ∈ effs) := by
  refine ⟨_, _, _, handleMessage_visitor cfg st now freshId req session hs hvis,
    ?_, ?_, ?_, ?_⟩
  · intro b hb hok
    have hmem : Effect.bridgeErrorLog b.name ∈ notifyBridgesMessage cfg.bridges := by
      unfold notifyBridgesMessage
      exact List.mem_map.mpr ⟨b, hb, by rw [hok]; rfl⟩
    exact List.mem_cons_of_mem _ (List.mem_cons_of_mem _ (List.mem_append_left _ hmem))
  · intro b hb hok
    have hmem : Effect.bridgeMessage b.name ∈ notifyBridgesMessage cfg.bridges := by
      unfold notifyBridgesMessage
      exact List.mem_map.mpr ⟨b, hb, by rw [hok]; rfl⟩
    exact List.mem_cons_of_mem _ (List.mem_cons_of_mem _ (List.mem_append_left _ hmem))
  · exact List.mem_cons_of_mem _ (List.mem_cons_of_mem _
      (List.mem_append_right _ (List.mem_cons_self _ _)))
  · refine ⟨mkMessage freshId req now, ?_⟩
    rw [hcb, if_pos rfl]
    exact List.mem_cons_of_mem _ (List.mem_cons_of_mem _
      (List.mem_append_right _ (List.mem_cons_of_mem _ (List.mem_cons_self _ _))))

/-- Witness for claim C7 at a concrete pair of bridges, the first of which
raises in its on_message hook. -/
theorem claimC7_witness :
    ∃ st' resp effs,
      handleMessage c7cfg c7state 3 "m5" c7req = (st', Except.ok (resp, effs)) ∧
      (∀ b ∈ c7cfg.bridges, b.onMessageOk = false
        → Effect.bridgeErrorLog b.name ∈ effs) ∧
      (∀ b ∈ c7cfg.bridges, b.onMessageOk = true → Effect.bridgeMessage b.name ∈ effs) ∧
      Effect.broadcast c7req.sessionId "message" ∈ effs ∧
      (∃ m, Effect.messageCallback m ∈ effs) :=
  claimC7 c7cfg c7state 3 "m5" c7req cSession (by decide) (by decide) (by decide)
    ⟨c7badBridge, by decide, by decide⟩

/-- Claim C6: updating a single matching message, status read stamps read_at
and back-fills delivered_at only when it was unset; status delivered stamps
delivered_at and never touches an existing read_at. -/
theorem claimC6 (cfg : Config) (st : CoreState) (now : Int) (req : ReadRequest)
    (mid : String) (m : Message)
    (hids : req.messageIds = [mid])
    (hm : st.storage.getMessage mid = some m)
    (hsid : m.sessionId = req.sessionId) :
    ∃ m', (handleRead cfg st now req).1.storage.getMessage mid = some m' ∧
      (req.status = .read →
        m'.readAt = some now ∧
        (m.deliveredAt = none → m'.deliveredAt = some now) ∧
        (∀ d, m.deliveredAt = some d → m'.deliveredAt = some d)) ∧
      (req.status = .delivered → m'.deliveredAt = some now ∧ m'.readAt = m.readAt) := by
  have hmid : m.id = mid := getMessage_id _ _ _ hm
  have hbs : (m.sessionId == req.sessionId) = true := by
    rw [hsid]; exact beq_self_eq_true _
  have hstor : (handleRead cfg st now req).1.storage
      = st.storage.saveMessage (applyStatus req.status now m) := by
    unfold handleRead
    rw [hids]
    simp only [readLoop, hm, hbs, if_true]
  refine ⟨applyStatus req.status now m, ?_, ?_, ?_⟩
  · rw [hstor, ← hmid, ← applyStatus_id req.status now m]
    exact getMessage_saveMessage_self _ _
      (by rw [applyStatus_id, hmid, hm]; rfl)
  · intro hread
    rw [hread]
    refine ⟨rfl, ?_, ?_⟩
    · intro h0
      simp only [applyStatus, h0]
      rfl
    · intro d hd
      simp only [applyStatus, hd]
      rfl
  · intro hdel
    rw [hdel]
    exact ⟨rfl, rfl⟩

/-- Witness for claim C6 at a concrete single-message read request. -/
theorem claimC6_witness :
    ∃ m', (handleRead {} c5state 9 c6req).1.storage.getMessage "m1" = some m' ∧
      (c6req.status = .read →
        m'.readAt = some 9 ∧
        (c5msg.deliveredAt = none → m'.deliveredAt = some 9) ∧
        (∀ d, c5msg.deliveredAt = some d → m'.deliveredAt = some d)) ∧
      (c6req.status = .delivered → m'.deliveredAt = some 9 ∧ m'.readAt = c5msg.readAt) :=
  claimC6 {} c5state 9 c6req "m1" c5msg (by decide) (by decide) (by decide)

/-- The read dispatch emits exactly one dispatch marker. -/
theorem notifyBridgesRead_countP_dispatch (bridges : List Bridge) :
    (notifyBridgesRead bridges).countP (fun e => e == Effect.bridgeReadDispatch) = 1 := by
  unfold notifyBridgesRead
  rw [List.countP_cons]
  have h0 : (bridges.filterMap (fun b =>
      if b.hasOnMessageRead then
        some (if b.onMessageReadOk then Effect.bridgeRead b.name
          else Effect.bridgeErrorLog b.name)
      else none)).countP (fun e => e == Effect.bridgeReadDispatch) = 0 := by
    rw [List.countP_eq_zero]
    intro e he
    obtain ⟨n, hn | hn⟩ := notifyBridgesRead_tail_forms bridges e he
    · subst hn; simp
    · subst hn; simp
  rw [h0]
  simp

/-- The read dispatch emits no broadcast effect. -/
theorem notifyBridgesRead_countP_broadcast (bridges : List Bridge) (sid : String) :
    (notifyBridgesRead bridges).countP
      (fun e => e == Effect.broadcast sid "read") = 0 := by
  unfold notifyBridgesRead
  rw [List.countP_cons]
  have h0 : (bridges.filterMap (fun b =>
      if b.hasOnMessageRead then
        some (if b.onMessageReadOk then Effect.bridgeRead b.name
          else Effect.bridgeErrorLog b.name)
      else none)).countP (fun e => e == Effect.broadcast sid "read") = 0 := by
    rw [List.countP_eq_zero]
    intro e he
    obtain ⟨n, hn | hn⟩ := notifyBridgesRead_tail_forms bridges e he
    · subst hn; simp
    · subst hn; simp
  rw [h0]
  simp

/-- The save effects of the read loop count as neither broadcast nor dispatch. -/
theorem readLoop_countP_broadcast (sid : String) (status : MessageStatus) (now : Int)
    (ids : List String) (storage : Storage) :
    ((readLoop storage sid status now ids).2.2.countP
        (fun e => e == Effect.broadcast sid "read") = 0)
    ∧ ((readLoop storage sid status now ids).2.2.countP
        (fun e => e == Effect.bridgeReadDispatch) = 0) := by
  constructor
  · rw [List.countP_eq_zero]
    intro e he
    obtain ⟨mm, rfl, -, -⟩ := readLoop_effects sid status now ids storage e he
    simp
  · rw [List.countP_eq_zero]
    intro e he
    obtain ⟨mm, rfl, -, -⟩ := readLoop_effects sid status now ids storage e he
    simp

/-- Claim C5 (amended): handle_read updates exactly the listed ids that resolve
to a message of the session, once per occurrence in the request list, and the
returned count equals that number of occurrences; the single read broadcast
fires exactly when at least one message was updated, and the single bridge
read dispatch fires exactly when at least one message was updated and the
session still resolves in storage. -/
theorem claimC5 (cfg : Config) (st : CoreState) (now : Int) (req : ReadRequest) :
    (handleRead cfg st now req).2.1.updated
        = req.messageIds.countP (fun mid => matchesSession st.storage req.sessionId mid)
    ∧ (∀ m, Effect.saveMessage m ∈ (handleRead cfg st now req).2.2
        → m.id ∈ req.messageIds ∧ m.sessionId = req.sessionId)
    ∧ ((handleRead cfg st now req).2.2.countP
          (fun e => e == Effect.broadcast req.sessionId "read")
        = if 0 < (handleRead cfg st now req).2.1.updated then 1 else 0)
    ∧ ((handleRead cfg st now req).2.2.countP (fun e => e == Effect.bridgeReadDispatch)
        = if 0 < (handleRead cfg st now req).2.1.updated
              ∧ (st.storage.getSession req.sessionId).isSome = true
          then 1 else 0) := by
  have hupd : (handleRead cfg st now req).2.1.updated
      = (readLoop st.storage req.sessionId req.status now req.messageIds).2.1 := rfl
  have heffs : (handleRead cfg st now req).2.2
      = (readLoop st.storage req.sessionId req.status now req.messageIds).2.2
        ++ (if (readLoop st.storage req.sessionId req.status now req.messageIds).2.1 > 0
            then Effect.broadcast req.sessionId "read"
              :: (match (readLoop st.storage req.sessionId req.status now
                    req.messageIds).1.getSession req.sessionId with
                  | some _ => notifyBridgesRead cfg.bridges
                  | none => [])
            else []) := rfl
  have hses : (readLoop st.storage req.sessionId req.status now
        req.messageIds).1.getSession req.sessionId
      = st.storage.getSession req.sessionId := by
    unfold Storage.getSession
    rw [readLoop_sessions]
  refine ⟨?_, ?_, ?_, ?_⟩
  · rw [hupd, readLoop_updated]
  · intro m hmem
    rw [heffs, List.mem_append] at hmem
    cases hmem with
    | inl hin =>
      obtain ⟨mm, hq, h2, h3⟩ := readLoop_effects req.sessionId req.status now
        req.messageIds st.storage _ hin
      cases hq
      exact ⟨h2, h3⟩
    | inr hin =>
      exfalso
      by_cases hpos : (readLoop st.storage req.sessionId req.status now
          req.messageIds).2.1 > 0
      · rw [if_pos hpos] at hin
        rw [List.mem_cons] at hin
        cases hin with
        | inl hq => cases hq
        | inr hq =>
          cases hgs : st.storage.getSession req.sessionId with
          | none => rw [hses, hgs] at hq; cases hq
          | some s0 =>
            rw [hses, hgs] at hq
            unfold notifyBridgesRead at hq
            rw [List.mem_cons] at hq
            cases hq with
            | inl hq2 => cases hq2
            | inr hq2 =>
              obtain ⟨n, hn | hn⟩ := notifyBridgesRead_tail_forms cfg.bridges _ hq2
                <;> cases hn
      · rw [if_neg hpos] at hin
        cases hin
  · rw [hupd, heffs, List.countP_append,
      (readLoop_countP_broadcast req.sessionId req.status now req.messageIds st.storage).1]
    simp only [gt_iff_lt]
    by_cases hpos : 0 < (readLoop st.storage req.sessionId req.status now
        req.messageIds).2.1
    · rw [if_pos hpos, if_pos hpos, List.countP_cons]
      cases hgs : st.storage.getSession req.sessionId with
      | none =>
        rw [hses, hgs]
        simp
      | some s0 =>
        rw [hses, hgs, notifyBridgesRead_countP_broadcast]
        simp
    · rw [if_neg hpos, if_neg hpos]
      rfl
  · rw [hupd, heffs, List.countP_append,
      (readLoop_countP_broadcast req.sessionId req.status now req.messageIds st.storage).2]
    simp only [gt_iff_lt]
    by_cases hpos : 0 < (readLoop st.storage req.sessionId req.status now
        req.messageIds).2.1
    · rw [if_pos hpos, List.countP_cons]
      cases hgs : st.storage.getSession req.sessionId with
      | none =>
        rw [hses, hgs, if_neg (by simp [hgs])]
        simp
      | some s0 =>
        rw [hses, hgs, notifyBridgesRead_countP_dispatch]
        simp [hpos]
    · rw [if_neg hpos, if_neg (fun hc => hpos hc.1)]
      rfl

/-- Counterexample for claim C5 as stated: a read request listing the same
message id twice reports two updates although exactly one stored message is
listed, exists, and belongs to the session, so the returned count does not
equal the number of matching messages. -/
theorem claimC5_counterexample :
    (handleRead {} c5state 50 c5req).2.1.updated = 2 ∧
    (c5state.storage.messages.filter (fun m =>
      decide (m.id ∈ c5req.messageIds) && (m.sessionId == c5req.sessionId))).length
      = 1 := by decide

end PocketPing
